import Mathlib

/-!
Shallow embedding of the session protocol engine of `min-telnet-lib`
(`src/index.ts`, class `TelnetT`).  Strings flowing over the transport are
modelled as `List Char`; the four default authentication regexes are modelled
by their `RegExp.test` semantics as decidable predicates; the event-driven
`read` loop is modelled as a fold over the list of arriving data chunks;
fallible operations return `Except ServiceError`.
-/

namespace MinTelnet

/-- Lowercase an ASCII uppercase letter (codes 65..90), leaving every other
character unchanged.  Models the effect of the case-insensitive `i` flag on
the default regexes of `src/index.ts`. -/
def toLowerChar (c : Char) : Char :=
  if 65 ≤ c.toNat ∧ c.toNat ≤ 90 then Char.ofNat (c.toNat + 32) else c

/-- ASCII-lowercase a character list. -/
def lowerList (l : List Char) : List Char := l.map toLowerChar

/-- `containsSub hay needle` models JavaScript `hay.includes(needle)`:
`needle` occurs as a contiguous substring of `hay`. -/
def containsSub : List Char → List Char → Bool
  | [], needle => needle.isEmpty
  | c :: rest, needle => List.isPrefixOf needle (c :: rest) || containsSub rest needle

/-- Case-insensitive substring containment (ASCII). -/
def containsCI (hay needle : List Char) : Bool :=
  containsSub (lowerList hay) (lowerList needle)

/-- JavaScript `\s` restricted to ASCII: space, tab, newline, carriage
return, vertical tab, form feed (the characters relevant to this engine,
whose transport is set to ascii encoding). -/
def isJsWhitespace (c : Char) : Bool :=
  c = ' ' || c = '\t' || c = '\n' || c = '\r' || c = '\x0B' || c = '\x0C'

/-- `RegExp.test` of `DEFAULT_REGEXP_LOGIN = new RegExp('(.*username*|.*login*|)', 'i')`
(src/index.ts line 37).  `username*` denotes `usernam` followed by zero or
more `e`, `login*` denotes `logi` followed by zero or more `n`, and the
trailing `|` before `)` adds an EMPTY alternative, which matches the empty
substring at any position of any input; `test` therefore succeeds on every
string.  The two named alternatives are kept so the definition mirrors the
source regex. -/
def DEFAULT_REGEXP_LOGIN_test (s : List Char) : Bool :=
  containsCI s "usernam".toList || containsCI s "logi".toList || true

/-- `RegExp.test` of `DEFAULT_REGEXP_PASSWORD = new RegExp('.*password*', 'i')`
(src/index.ts line 38): `password*` is `passwor` followed by zero or more `d`,
and the leading `.*` may match zero characters, so `test` succeeds exactly
when the input contains `passwor` case-insensitively. -/
def DEFAULT_REGEXP_PASSWORD_test (s : List Char) : Bool :=
  containsCI s "passwor".toList

/-- `RegExp.test` of
`DEFAULT_REGEXP_INCORRECT_LOGIN = new RegExp('(.*incorrect*|.*fail*)', 'i')`
(src/index.ts line 39): succeeds exactly when the input contains `incorrec`
or `fai` case-insensitively (`t*` and `l*` may match zero characters). -/
def DEFAULT_REGEXP_INCORRECT_LOGIN_test (s : List Char) : Bool :=
  containsCI s "incorrec".toList || containsCI s "fai".toList

/-- Helper for `DEFAULT_REGEXP_END_test`: scans a REVERSED string, skipping
whitespace; succeeds if the first non-whitespace character from the end is
`>` or `#`. -/
def endsWithPromptAux : List Char → Bool
  | [] => false
  | c :: rest => if isJsWhitespace c then endsWithPromptAux rest else (c = '>' || c = '#')

/-- `RegExp.test` of `DEFAULT_REGEXP_END = new RegExp('.*[>#]\\s*$')`
(src/index.ts line 36): without the `m` flag, `$` anchors at the very end of
the input, so `test` succeeds exactly when the input ends with `>` or `#`
followed only by whitespace. -/
def DEFAULT_REGEXP_END_test (s : List Char) : Bool :=
  endsWithPromptAux s.reverse

example : DEFAULT_REGEXP_LOGIN_test "".toList = true := by decide
example : DEFAULT_REGEXP_PASSWORD_test "Password: ".toList = true := by decide
example : DEFAULT_REGEXP_PASSWORD_test "Username: ".toList = false := by decide
example : DEFAULT_REGEXP_END_test "Router# ".toList = true := by decide
example : DEFAULT_REGEXP_END_test "Router".toList = false := by decide
example : DEFAULT_REGEXP_INCORRECT_LOGIN_test "Login FAILED".toList = true := by decide

/-- `ServiceError` of src/index.ts: a message and an error code. -/
structure ServiceError where
  message : String
  code : String
deriving DecidableEq, Repr

/-- The BEL control character `'\x07'` checked by the read loop. -/
def belChar : Char := '\x07'

/-- Mutable state of one `read(connection, match, timeout)` operation
(src/index.ts lines 201-300): the accumulated buffer `bufferLong`, the
`quitSent` idempotence flag, the number of cancel bytes (`'\x03'`) written to
the transport so far, the resolution value once `cleanup(); resolve(...)` has
run on the pattern-match path, and whether the 1-second BEL grace timer has
been armed. -/
structure ReadState where
  bufferLong : List Char
  quitSent : Bool
  cancels : Nat
  resolved : Option (List Char)
  belPending : Bool
deriving DecidableEq, Repr

/-- Initial state of a read: empty buffer, no interrupt sent, no cancel
bytes written, unresolved, no grace timer. -/
def initReadState : ReadState :=
  { bufferLong := [], quitSent := false, cancels := 0, resolved := none, belPending := false }

/-- One firing of the `onData` listener of `read` (src/index.ts lines
224-296) on chunk `data`, for completion pattern `m`.  After `cleanup()` has
run the listener is removed, so a resolved state absorbs further chunks.
Otherwise, in source order: append the chunk to `bufferLong`; if the CHUNK
contains BEL and no interrupt was sent, set `quitSent`, write one `'\x03'`
and arm the 1-second grace timer (the handler returns without testing the
pattern); else if the BUFFER contains all of `CTRL+C`, `ESC` and `Quit` and
no interrupt was sent, set `quitSent` and write one `'\x03'` but keep
reading; else if the buffer matches the pattern, resolve with the buffer. -/
def onData (m : List Char → Bool) (st : ReadState) (data : List Char) : ReadState :=
  if st.resolved.isSome then st
  else if data.contains belChar && !st.quitSent then
    { st with bufferLong := st.bufferLong ++ data, quitSent := true,
              cancels := st.cancels + 1, belPending := true }
  else if containsSub (st.bufferLong ++ data) "CTRL+C".toList &&
          containsSub (st.bufferLong ++ data) "ESC".toList &&
          containsSub (st.bufferLong ++ data) "Quit".toList && !st.quitSent then
    { st with bufferLong := st.bufferLong ++ data, quitSent := true,
              cancels := st.cancels + 1 }
  else if m (st.bufferLong ++ data) then
    { st with bufferLong := st.bufferLong ++ data,
              resolved := some (st.bufferLong ++ data) }
  else
    { st with bufferLong := st.bufferLong ++ data }

/-- State after the listener has processed the chunks arriving during one
read operation, in order. -/
def readFold (m : List Char → Bool) (chunks : List (List Char)) : ReadState :=
  chunks.foldl (onData m) initReadState

/-- Value the read promise resolves with, together with the number of cancel
bytes written during the read.  If the pattern-match path ran `resolve(buf)`
that buffer is the value; otherwise the BEL grace timer or the timeout timer
fires and resolves with the accumulated `bufferLong` (the read promise never
rejects: every exit path calls `resolve`). -/
def readOp (m : List Char → Bool) (chunks : List (List Char)) : List Char × Nat :=
  let st := readFold m chunks
  (st.resolved.getD st.bufferLong, st.cancels)

/-- `AuthParams` of src/index.ts: required `login` and `password`, optional
timeout and the four optional patterns (modelled by their `test`
functions). -/
structure AuthParams where
  login : String
  password : String
  timeoutAuth : Option Nat
  regExpLogin : Option (List Char → Bool)
  regExpPassword : Option (List Char → Bool)
  regExpFailedLogin : Option (List Char → Bool)
  regExpConnected : Option (List Char → Bool)

/-- `AuthParams` after `sanitizeAuthParams`: every optional field filled. -/
structure SanAuthParams where
  login : String
  password : String
  timeoutAuth : Nat
  regExpLogin : List Char → Bool
  regExpPassword : List Char → Bool
  regExpFailedLogin : List Char → Bool
  regExpConnected : List Char → Bool

/-- `sanitizeAuthParams` (src/index.ts lines 360-373): throws
`ERR_LOGIN_PASSWORD_REQUIRED` when `login` or `password` is falsy (the empty
string, for the declared string fields), otherwise fills the defaults by
object spread: a field given by the caller overrides the default. -/
def sanitizeAuthParams (data : AuthParams) : Except ServiceError SanAuthParams :=
  if data.login = "" ∨ data.password = "" then
    .error ⟨"Login and password must not be empty", "ERR_LOGIN_PASSWORD_REQUIRED"⟩
  else
    .ok { login := data.login
          password := data.password
          timeoutAuth := data.timeoutAuth.getD 7500
          regExpLogin := data.regExpLogin.getD DEFAULT_REGEXP_LOGIN_test
          regExpPassword := data.regExpPassword.getD DEFAULT_REGEXP_PASSWORD_test
          regExpFailedLogin := data.regExpFailedLogin.getD DEFAULT_REGEXP_INCORRECT_LOGIN_test
          regExpConnected := data.regExpConnected.getD DEFAULT_REGEXP_END_test }

/-- The chunks the transport delivers during each of the three reads of the
authentication handshake. -/
structure AuthScript where
  loginChunks : List (List Char)
  passwordChunks : List (List Char)
  endChunks : List (List Char)

/-- The cancel bytes a read wrote, as transport writes. -/
def cancelWrites (n : Nat) : List String := List.replicate n "\x03"

/-- Validation of the post-password buffer, the tail of `initLogin`
(src/index.ts lines 166-174): the failure pattern is tested FIRST and wins;
only then is the success pattern required. -/
def validateEndBuff (p : SanAuthParams) (endBuff : List Char) : Except ServiceError Bool :=
  if p.regExpFailedLogin endBuff then
    .error ⟨"Incorrect login or password", "FAIL_LOGIN_OR_PASSWORD"⟩
  else if !p.regExpConnected endBuff then
    .error ⟨"Could not find any regexp for valid connect on response", "FAIL_VALID_CONNECT"⟩
  else
    .ok true

/-- `initLogin` (src/index.ts lines 152-181): read until the login pattern,
write `login + '\n'`, read until the password pattern, write
`password + '\n'`, read until the success pattern, then validate.  Returns
the outcome together with the ordered list of strings written to the
transport (credential lines and any `'\x03'` cancel bytes written inside the
reads). -/
def initLogin (p : SanAuthParams) (sc : AuthScript) :
    Except ServiceError Bool × List String :=
  let r1 := readOp p.regExpLogin sc.loginChunks
  let w1 := cancelWrites r1.2
  if p.regExpLogin r1.1 then
    let w2 := w1 ++ [p.login ++ "\n"]
    let r2 := readOp p.regExpPassword sc.passwordChunks
    let w3 := w2 ++ cancelWrites r2.2
    if p.regExpPassword r2.1 then
      let w4 := w3 ++ [p.password ++ "\n"]
      let r3 := readOp p.regExpConnected sc.endChunks
      let w5 := w4 ++ cancelWrites r3.2
      (validateEndBuff p r3.1, w5)
    else
      (.error ⟨"Could not find regexp password", "ERR_AUTH"⟩, w3)
  else
    (.error ⟨"Could not find regexp login", "ERR_AUTH"⟩, w1)

/-- How the promise returned by `auth` settles: it fulfills with a boolean,
rejects with a `ServiceError`, or never settles at all — in the last case an
error thrown inside the ignored async executor promise may escape as an
unhandled rejection, which is recorded here without being delivered to the
caller. -/
inductive AuthOutcome where
  | fulfilled (b : Bool)
  | rejected (e : ServiceError)
  | neverSettles (unhandled : Option ServiceError)
deriving DecidableEq, Repr

/-- The `try`/`catch` body of the `auth` executor (src/index.ts lines
102-112) applied to the outcome of `initLogin`: a `true` result reaches
`resolve(true)`, so the promise fulfills with `true`; a thrown error reaches
`reject(e)`; a `false` result would only clear the guard timer and fall off
the end of the executor without resolving, leaving the promise pending
(unreachable in practice, since `initLogin` never returns `false`). -/
def authSettle (r : Except ServiceError Bool × List String) :
    AuthOutcome × List String :=
  match r with
  | (.ok true, w) => (.fulfilled true, w)
  | (.ok false, w) => (.neverSettles none, w)
  | (.error e, w) => (.rejected e, w)

/-- `auth` (src/index.ts lines 94-114) at promise-settlement fidelity.  The
body runs inside `new Promise(async (resolve, reject) => ...)` and calls
`sanitizeAuthParams` at the top of that async executor, OUTSIDE the
`try`/`catch`.  When sanitization throws, the throw never reaches the
`Promise` constructor (an async function does not throw synchronously: it
returns a rejected promise, which the constructor ignores), so the promise
returned by `auth` NEVER settles; the `ERR_LOGIN_PASSWORD_REQUIRED` error
survives only as an unhandled rejection, and no byte has been written to the
transport.  Otherwise the handshake runs under the `try`/`catch` and settles
per `authSettle`. -/
def auth (data : AuthParams) (sc : AuthScript) : AuthOutcome × List String :=
  match sanitizeAuthParams data with
  | .error e => (.neverSettles (some e), [])
  | .ok p => authSettle (initLogin p sc)

/-- `setWindowSize` (src/index.ts lines 375-383): the 9-byte NAWS
sub-negotiation `IAC SB NAWS widthHi widthLo heightHi heightLo IAC SE`,
with `Math.floor(x / 256)` and `x % 256` for the high/low bytes. -/
def setWindowSize (width height : Nat) : List Nat :=
  [255, 250, 31,
   width / 256, width % 256,
   height / 256, height % 256,
   255, 240]

/-- The `connect` handler installed by `initConnect` (src/index.ts lines
343-345): on transport establishment it writes the default 80×24 NAWS
sequence and nothing else. -/
def initConnectOnConnectWrites : List (List Nat) := [setWindowSize 80 24]

/-- `trimEmptyLines` (src/index.ts lines 385-387), i.e.
`text.replace(/\n\s*$/g, '')`: the regex matches from the leftmost `'\n'`
that is followed only by whitespace up to the end of the string, and that
match is deleted; a string with no such newline is unchanged. -/
def trimEmptyLines : List Char → List Char
  | [] => []
  | c :: rest =>
      if c = '\n' && rest.all isJsWhitespace then []
      else c :: trimEmptyLines rest

/-- String-level wrapper of `trimEmptyLines`. -/
def trimEmptyLinesStr (s : String) : String := ⟨trimEmptyLines s.toList⟩

/-- Events `exec` emits on the transport: a NAWS negotiation or a write of a
command line. -/
inductive ExecEv where
  | naws (width height : Nat)
  | write (s : String)
deriving DecidableEq, Repr

/-- `exec` (src/index.ts lines 128-150), with the fallible write and read
steps supplied as outcomes.  If `pageHeight` is given, negotiate
width 80 / height `pageHeight` first; then write `cmd + '\n'` and read; on
success negotiate the default 80×24 back (unconditionally) and return the
trimmed result; on failure re-raise AFTER negotiating 80×24 back whenever a
custom height was set. -/
def exec (cmd : String) (pageHeight : Option Nat)
    (writeRes : Except ServiceError Bool) (readRes : Except ServiceError String) :
    Except ServiceError String × List ExecEv :=
  let pre : List ExecEv :=
    match pageHeight with
    | some h => [.naws 80 h]
    | none => []
  let restore : List ExecEv :=
    match pageHeight with
    | some _ => [.naws 80 24]
    | none => []
  match writeRes with
  | .error e => (.error e, pre ++ restore)
  | .ok _ =>
    let afterWrite := pre ++ [.write (cmd ++ "\n")]
    match readRes with
    | .error e => (.error e, afterWrite ++ restore)
    | .ok result =>
        (.ok (trimEmptyLinesStr result), afterWrite ++ [.naws 80 24])

example : trimEmptyLinesStr "a\nb\n\n\n" = "a\nb" := by decide
example : trimEmptyLinesStr "a\nb" = "a\nb" := by decide
example : setWindowSize 80 24 = [255, 250, 31, 0, 80, 0, 24, 255, 240] := by decide

/-! ## Invariants of the read loop -/

/-- The idempotence invariant of the cancel byte: at most one cancel byte
has been written, none before `quitSent` is set, and an armed BEL grace
timer implies exactly one cancel byte has been written and no further one
can be (`quitSent` is set). -/
def cancelInv (st : ReadState) : Prop :=
  st.cancels ≤ 1 ∧ (st.quitSent = false → st.cancels = 0) ∧
    (st.belPending = true → st.cancels = 1 ∧ st.quitSent = true)

theorem onData_cancelInv (m : List Char → Bool) (st : ReadState) (d : List Char)
    (h : cancelInv st) : cancelInv (onData m st d) := by
  obtain ⟨h1, h2, h3⟩ := h
  unfold onData cancelInv
  split
  · exact ⟨h1, h2, h3⟩
  · split
    · rename_i hbel
      have hq : st.quitSent = false := by
        cases hqs : st.quitSent
        · rfl
        · simp [hqs] at hbel
      simp [h2 hq]
    · split
      · rename_i hban
        have hq : st.quitSent = false := by
          cases hqs : st.quitSent
          · rfl
          · simp [hqs] at hban
        simp [h2 hq]
      · split
        · exact ⟨h1, h2, h3⟩
        · exact ⟨h1, h2, h3⟩

theorem foldl_cancelInv (m : List Char → Bool) (chunks : List (List Char)) :
    ∀ st : ReadState, cancelInv st → cancelInv (chunks.foldl (onData m) st) := by
  induction chunks with
  | nil => intro st h; exact h
  | cons d ds ih => intro st h; exact ih _ (onData_cancelInv m st d h)

/-- Once the read has resolved, its listener is detached: further chunks do
not change the state. -/
theorem onData_of_resolved (m : List Char → Bool) (st : ReadState) (d : List Char)
    (h : st.resolved.isSome) : onData m st d = st := by
  unfold onData
  simp [h]

theorem foldl_of_resolved (m : List Char → Bool) (chunks : List (List Char)) :
    ∀ st : ReadState, st.resolved.isSome → chunks.foldl (onData m) st = st := by
  induction chunks with
  | nil => intro st _; rfl
  | cons d ds ih =>
      intro st h
      rw [List.foldl_cons, onData_of_resolved m st d h]
      exact ih st h

/-- While unresolved, every chunk is appended to the accumulated buffer,
whichever branch of the handler fires. -/
theorem onData_bufferLong (m : List Char → Bool) (st : ReadState) (d : List Char)
    (h : st.resolved = none) : (onData m st d).bufferLong = st.bufferLong ++ d := by
  unfold onData
  simp only [h, Option.isSome_none, Bool.false_eq_true, if_false]
  split
  · rfl
  · split
    · rfl
    · split
      · rfl
      · rfl

/-- A run of the listener that ends unresolved has accumulated every chunk,
in order. -/
theorem foldl_bufferLong_of_unresolved (m : List Char → Bool) (chunks : List (List Char)) :
    ∀ st : ReadState, (chunks.foldl (onData m) st).resolved = none →
      (chunks.foldl (onData m) st).bufferLong = st.bufferLong ++ chunks.flatten := by
  induction chunks with
  | nil => intro st _; simp
  | cons d ds ih =>
      intro st hres
      rw [List.foldl_cons] at hres ⊢
      have hst : st.resolved = none := by
        cases hso : st.resolved with
        | none => rfl
        | some b =>
            have : st.resolved.isSome := by simp [hso]
            rw [onData_of_resolved m st d this, foldl_of_resolved m ds st this] at hres
            rw [hso] at hres
            cases hres
      have hmid : (onData m st d).resolved = none := by
        cases hso : (onData m st d).resolved with
        | none => rfl
        | some b =>
            have : (onData m st d).resolved.isSome := by simp [hso]
            rw [foldl_of_resolved m ds _ this] at hres
            rw [hso] at hres
            cases hres
      rw [ih _ hres, onData_bufferLong m st d hst]
      simp

/-- C5: For every read operation, at most one cancel/interrupt byte (0x03)
is ever written to the transport, however many BEL characters or pagination
banners arrive during that read (and none at all while `quitSent` is still
unset).  Moreover, a BEL chunk arriving with no interrupt yet sent fires the
BEL branch: one cancel byte is written, `quitSent` is set and the 1-second
grace timer is armed; and whenever the grace timer was armed, exactly one
cancel byte was written for the whole read — additional BEL bytes arriving
afterward never produce a second one — and if no pattern match resolved the
read first, the grace timer resolves it with the entire accumulated
buffer. -/
theorem read_sends_at_most_one_cancel (m : List Char → Bool) (chunks : List (List Char)) :
    (readOp m chunks).2 ≤ 1 ∧
    ((readFold m chunks).quitSent = false → (readOp m chunks).2 = 0) ∧
    (∀ st : ReadState, ∀ data : List Char,
      st.resolved = none → st.quitSent = false → data.contains belChar = true →
      onData m st data =
        { st with bufferLong := st.bufferLong ++ data, quitSent := true,
                  cancels := st.cancels + 1, belPending := true }) ∧
    ((readFold m chunks).belPending = true →
      (readOp m chunks).2 = 1 ∧
      ((readFold m chunks).resolved = none → (readOp m chunks).1 = chunks.flatten)) := by
  have hinv := foldl_cancelInv m chunks initReadState
    ⟨by simp [initReadState], fun _ => rfl, by simp [initReadState]⟩
  refine ⟨hinv.1, hinv.2.1, ?_, ?_⟩
  · intro st data h1 h2 h3
    have h3' : belChar ∈ data := by simpa using h3
    unfold onData
    simp [h1, h2, h3']
  · intro hbel
    refine ⟨(hinv.2.2 hbel).1, ?_⟩
    intro hres
    have hb := foldl_bufferLong_of_unresolved m chunks initReadState hres
    unfold readOp
    simp only [readFold] at hres hb ⊢
    rw [hres]
    simpa [initReadState] using hb

/-- Witness for C5: two chunks each carrying a BEL byte, against a pattern
that never matches: the first BEL arms the grace timer and writes the single
cancel byte, the second BEL writes nothing more, and the read resolves with
all accumulated bytes. -/
theorem read_sends_at_most_one_cancel_witness :
    (readFold (fun _ => false) [['a', belChar], ['b', belChar]]).belPending = true ∧
    (readOp (fun _ => false) [['a', belChar], ['b', belChar]]).2 = 1 ∧
    (readOp (fun _ => false) [['a', belChar], ['b', belChar]]).1 =
      [['a', belChar], ['b', belChar]].flatten :=
  ⟨by decide,
    ((read_sends_at_most_one_cancel (fun _ => false)
        [['a', belChar], ['b', belChar]]).2.2.2 (by decide)).1,
    ((read_sends_at_most_one_cancel (fun _ => false)
        [['a', belChar], ['b', belChar]]).2.2.2 (by decide)).2 (by decide)⟩

/-- C6: When the accumulated buffer contains all three literal substrings
`CTRL+C`, `ESC` and `Quit`, no interrupt has been sent for this read, and the
chunk is not a BEL chunk, the handler writes one cancel byte (0x03) but does
NOT resolve the read: the state stays unresolved (even if the completion
pattern matches the buffer) and keeps accumulating subsequent chunks. -/
theorem pagination_banner_cancel_keeps_reading (m : List Char → Bool)
    (st : ReadState) (data : List Char)
    (h1 : st.resolved = none) (h2 : st.quitSent = false)
    (h3 : data.contains belChar = false)
    (h4 : containsSub (st.bufferLong ++ data) "CTRL+C".toList = true)
    (h5 : containsSub (st.bufferLong ++ data) "ESC".toList = true)
    (h6 : containsSub (st.bufferLong ++ data) "Quit".toList = true) :
    onData m st data =
      { st with bufferLong := st.bufferLong ++ data, quitSent := true,
                cancels := st.cancels + 1 } := by
  have h3' : belChar ∉ data := by simpa using h3
  unfold onData
  simp at h4 h5 h6
  simp [h1, h2, h3', h4, h5, h6]

/-- Witness for C6: the banner `CTRL+C ESC Quit` arriving as the first chunk
triggers exactly one cancel byte and leaves the read unresolved, even though
the completion pattern (constantly true here) matches the buffer. -/
theorem pagination_banner_cancel_keeps_reading_witness :
    onData (fun _ => true) initReadState "CTRL+C ESC Quit".toList =
      { initReadState with
          bufferLong := initReadState.bufferLong ++ "CTRL+C ESC Quit".toList,
          quitSent := true,
          cancels := initReadState.cancels + 1 } :=
  pagination_banner_cancel_keeps_reading (fun _ => true) initReadState
    "CTRL+C ESC Quit".toList rfl rfl (by decide) (by decide) (by decide) (by decide)

/-- C7: A read whose timeout elapses with no other terminal condition fired
(never resolved by a pattern match, no BEL grace timer armed) resolves with
exactly the bytes accumulated so far — the concatenation of all arrived
chunks, possibly empty — and this path produces a resolution, never an
error. -/
theorem read_timeout_resolves_with_accumulated (m : List Char → Bool)
    (chunks : List (List Char))
    (h1 : (readFold m chunks).resolved = none)
    (_h2 : (readFold m chunks).belPending = false) :
    (readOp m chunks).1 = chunks.flatten := by
  unfold readOp
  have hb := foldl_bufferLong_of_unresolved m chunks initReadState h1
  simp only [readFold] at h1 hb ⊢
  rw [h1]
  simpa [initReadState] using hb

/-- Witness for C7: a single chunk `a` that matches nothing: the read times
out and resolves with exactly that chunk. -/
theorem read_timeout_resolves_with_accumulated_witness :
    (readFold (fun _ => false) [['a']]).resolved = none ∧
    (readOp (fun _ => false) [['a']]).1 = [['a']].flatten :=
  ⟨by decide, read_timeout_resolves_with_accumulated (fun _ => false) [['a']]
    (by decide) (by decide)⟩

/-! ## Authentication claims -/

/-- C1 (code bug): for every `AuthParams` whose login or password is the
empty string, the `sanitizeAuthParams` throw precedes all network I/O —
zero bytes are ever written to the transport, whatever it would have
delivered — but, contrary to the claim, the promise returned by `auth` does
NOT reject: the throw inside the `new Promise(async ...)` executor leaves
that promise forever pending, and the `ERR_LOGIN_PASSWORD_REQUIRED` error
escapes only as an unhandled rejection of the ignored executor promise. -/
theorem auth_empty_credentials_never_settles (data : AuthParams) (sc : AuthScript)
    (h : data.login = "" ∨ data.password = "") :
    auth data sc =
      (.neverSettles (some ⟨"Login and password must not be empty",
                            "ERR_LOGIN_PASSWORD_REQUIRED"⟩), []) := by
  unfold auth sanitizeAuthParams
  rw [if_pos h]

/-- Witness for C1: empty login with non-empty password, on a transport that
would have offered a full happy-path script. -/
theorem auth_empty_credentials_never_settles_witness :
    (AuthParams.login ⟨"", "secret", none, none, none, none, none⟩ = "" ∨
      AuthParams.password ⟨"", "secret", none, none, none, none, none⟩ = "") ∧
    auth ⟨"", "secret", none, none, none, none, none⟩
        ⟨["Username: ".toList], ["Password: ".toList], ["Router# ".toList]⟩ =
      (.neverSettles (some ⟨"Login and password must not be empty",
                            "ERR_LOGIN_PASSWORD_REQUIRED"⟩), []) :=
  ⟨Or.inl rfl,
    auth_empty_credentials_never_settles
      ⟨"", "secret", none, none, none, none, none⟩
      ⟨["Username: ".toList], ["Password: ".toList], ["Router# ".toList]⟩ (Or.inl rfl)⟩

/-- C3: In the final authentication step, whenever the post-password buffer
matches the failure pattern, `initLogin` fails with
`FAIL_LOGIN_OR_PASSWORD` — the failure check runs before the success check,
so this holds in particular when the same buffer also matches the success
pattern (hypothesis `h4`). -/
theorem failure_banner_precedes_success_check (p : SanAuthParams) (sc : AuthScript)
    (h1 : p.regExpLogin (readOp p.regExpLogin sc.loginChunks).1 = true)
    (h2 : p.regExpPassword (readOp p.regExpPassword sc.passwordChunks).1 = true)
    (h3 : p.regExpFailedLogin (readOp p.regExpConnected sc.endChunks).1 = true)
    (_h4 : p.regExpConnected (readOp p.regExpConnected sc.endChunks).1 = true) :
    (initLogin p sc).1 =
      .error ⟨"Incorrect login or password", "FAIL_LOGIN_OR_PASSWORD"⟩ := by
  unfold initLogin validateEndBuff
  simp [h1, h2, h3]

/-- The fully-defaulted sanitized parameters (what `sanitizeAuthParams`
produces for `{login: "admin", password: "admin"}`). -/
def sanitizedDefaults : SanAuthParams :=
  { login := "admin"
    password := "admin"
    timeoutAuth := 7500
    regExpLogin := DEFAULT_REGEXP_LOGIN_test
    regExpPassword := DEFAULT_REGEXP_PASSWORD_test
    regExpFailedLogin := DEFAULT_REGEXP_INCORRECT_LOGIN_test
    regExpConnected := DEFAULT_REGEXP_END_test }

/-- Witness for C3: the post-password response `login fail> ` matches BOTH
the default failure pattern (it contains `fail`) and the default success
pattern (it ends with `> `), and the handshake rejects with
`FAIL_LOGIN_OR_PASSWORD`. -/
theorem failure_banner_precedes_success_check_witness :
    DEFAULT_REGEXP_INCORRECT_LOGIN_test "login fail> ".toList = true ∧
    DEFAULT_REGEXP_END_test "login fail> ".toList = true ∧
    (initLogin sanitizedDefaults
        ⟨["Username: ".toList], ["Password: ".toList], ["login fail> ".toList]⟩).1 =
      .error ⟨"Incorrect login or password", "FAIL_LOGIN_OR_PASSWORD"⟩ :=
  ⟨by decide, by decide,
    failure_banner_precedes_success_check sanitizedDefaults
      ⟨["Username: ".toList], ["Password: ".toList], ["login fail> ".toList]⟩
      (by decide) (by decide) (by decide) (by decide)⟩

/-- C10: `auth` never fulfills with `false`: whenever the returned promise
settles fulfilled its value is `true`, because every failure of the
handshake surfaces as a rejection (or, on the sanitize-throw path, as a
never-settling promise), never as a `false` result. -/
theorem auth_fulfilled_only_with_true (data : AuthParams) (sc : AuthScript)
    (b : Bool) (w : List String) (h : auth data sc = (.fulfilled b, w)) : b = true := by
  unfold auth at h
  cases hs : sanitizeAuthParams data with
  | error e =>
      rw [hs] at h
      have h2 : ((AuthOutcome.neverSettles (some e)), ([] : List String)) =
          (AuthOutcome.fulfilled b, w) := h
      simp at h2
  | ok p =>
      rw [hs] at h
      have h2 : authSettle (initLogin p sc) = (AuthOutcome.fulfilled b, w) := h
      rcases hil : initLogin p sc with ⟨r, wr⟩
      rw [hil] at h2
      rcases r with e | bb
      · simp [authSettle] at h2
      · cases bb
        · simp [authSettle] at h2
        · simp [authSettle] at h2
          exact h2.1

/-- Witness for C10: the scripted happy path (`Username:`, `Password:`,
`Router# `) makes `auth` fulfill, and by C10 the fulfilled value is true. -/
theorem auth_fulfilled_only_with_true_witness :
    auth ⟨"admin", "admin", none, none, none, none, none⟩
        ⟨["Username: ".toList], ["Password: ".toList], ["Router# ".toList]⟩ =
      (.fulfilled true, ["admin\n", "admin\n"]) ∧
    (true : Bool) = true :=
  ⟨rfl,
    auth_fulfilled_only_with_true ⟨"admin", "admin", none, none, none, none, none⟩
      ⟨["Username: ".toList], ["Password: ".toList], ["Router# ".toList]⟩
      true ["admin\n", "admin\n"] rfl⟩

/-! ## Command executor, window size, output trimming, default patterns -/

/-- C4: For every `exec` call with a `pageHeight` argument, the first
transport event is the width 80 / height `pageHeight` window-size
negotiation — it precedes the command-line write — and the last transport
event is the width 80 / height 24 negotiation, on the success path and on
both failure paths (failed write, failed read) alike. -/
theorem exec_pageHeight_restores_geometry (cmd : String) (ph : Nat)
    (writeRes : Except ServiceError Bool) (readRes : Except ServiceError String) :
    ((exec cmd (some ph) writeRes readRes).2.head? = some (ExecEv.naws 80 ph)) ∧
    ((exec cmd (some ph) writeRes readRes).2.getLast? = some (ExecEv.naws 80 24)) := by
  cases writeRes <;> cases readRes <;> exact ⟨rfl, rfl⟩

/-- C8: For every width and height up to 65535, the NAWS negotiator emits
exactly the 9-byte sequence `IAC SB NAWS widthHi widthLo heightHi heightLo
IAC SE` with big-endian 16-bit width and height, every entry a valid byte;
and the connect handler installed on transport establishment writes exactly
the 80×24 instance of this sequence (and nothing before it). -/
theorem naws_nine_byte_sequence (w h : Nat) (hw : w ≤ 65535) (hh : h ≤ 65535) :
    setWindowSize w h =
      [0xFF, 0xFA, 0x1F, w / 256, w % 256, h / 256, h % 256, 0xFF, 0xF0] ∧
    (setWindowSize w h).length = 9 ∧
    (∀ b ∈ setWindowSize w h, b ≤ 255) ∧
    initConnectOnConnectWrites = [setWindowSize 80 24] := by
  refine ⟨rfl, rfl, ?_, rfl⟩
  intro b hb
  simp [setWindowSize] at hb
  rcases hb with hb | hb | hb | hb | hb | hb | hb | hb | hb <;> subst hb <;> omega

/-- Witness for C8: the default 80×24 negotiation is
`[255, 250, 31, 0, 80, 0, 24, 255, 240]`. -/
theorem naws_nine_byte_sequence_witness :
    (80 ≤ 65535 ∧ 24 ≤ 65535) ∧
    setWindowSize 80 24 = [255, 250, 31, 0, 80, 0, 24, 255, 240] :=
  ⟨⟨by decide, by decide⟩, (naws_nine_byte_sequence 80 24 (by decide) (by decide)).1⟩

/-- C9: stripping trailing blank lines removes the trailing `\n\n\n` block of
`a\nb\n\n\n` and is the identity on `a\nb`, which has no trailing blank
line. -/
theorem trimEmptyLines_roundtrip :
    trimEmptyLinesStr "a\nb\n\n\n" = "a\nb" ∧ trimEmptyLinesStr "a\nb" = "a\nb" :=
  ⟨rfl, rfl⟩

/-- Counterexample for C2: the claim that the default login pattern does not
match a buffer free of login/username mentions — for instance the empty
buffer — is false: `DEFAULT_REGEXP_LOGIN` has an empty alternative
(`(.*username*|.*login*|)`), so its test accepts the empty string. -/
theorem default_login_pattern_matches_empty :
    DEFAULT_REGEXP_LOGIN_test "".toList = true := by decide

/-- C2 (amended): the default password, failure and prompt patterns are
case-insensitive tests for `passwor(d*)`, for `incorrec(t*)`/`fai(l*)`, and
for a trailing `>`/`#` prompt; the default login pattern, however, contains
an empty alternative and accepts EVERY buffer, the empty one included. -/
theorem default_patterns_behavior :
    (∀ s : List Char, DEFAULT_REGEXP_LOGIN_test s = true) ∧
    DEFAULT_REGEXP_PASSWORD_test "Enter PASSWORD:".toList = true ∧
    DEFAULT_REGEXP_PASSWORD_test "Username: ".toList = false ∧
    DEFAULT_REGEXP_INCORRECT_LOGIN_test "Login Incorrect".toList = true ∧
    DEFAULT_REGEXP_INCORRECT_LOGIN_test "FAILURE".toList = true ∧
    DEFAULT_REGEXP_INCORRECT_LOGIN_test "welcome back".toList = false ∧
    DEFAULT_REGEXP_END_test "Router# ".toList = true ∧
    DEFAULT_REGEXP_END_test "switch>".toList = true ∧
    DEFAULT_REGEXP_END_test "Router".toList = false := by
  refine ⟨fun s => ?_, by decide, by decide, by decide, by decide, by decide,
    by decide, by decide, by decide⟩
  simp [DEFAULT_REGEXP_LOGIN_test]

end MinTelnet
